import Mathlib

/-!
Shallow embedding of the MAILAZ mail service core (src/src/server.js, the
current multi-account version with bulk delay support).

The embedded parts are: the JS falsiness conventions used by the handler,
the recipient formatter `fmt`, the transporter factory `createTransporter`,
and the request handler produced by `createSendHandler`, covering its three
dispatch branches (delayed sequential loop, concurrent individual send via
`Promise.allSettled`, and single BCC send).

Effects are made explicit:
  * `sent` is the ordered list of messages handed to `transporterInstance.sendMail`;
  * `events` is the interleaved trace of sleeps and sends, with a
    millisecond clock (`sleep(delaySeconds * 1000)` advances it by
    `delaySeconds * 1000`; the i-th transport call advances it by
    `sendTimesMs i`);
  * transport outcomes are a parameter `outcomes : Nat → Except String SendInfo`
    giving the result of the i-th transport call, so that failures of
    individual sends can be arbitrary;
  * message bodies are kept symbolic (`Content`): a named template together
    with the context object passed to `sendMail`, a raw `html` string passed
    through untouched, or a compiled raw-HTML template applied to a context
    (`hbs.compile(html)` followed by `htmlTemplate(r)`).

Template contexts are string-to-string association lists; lookup takes the
first match, so the JS object spread `{ ...context, ...r }` (later keys win)
is embedded by putting the recipient fields in front.
-/

namespace Mailaz

/-- A recipient as validated by the `Recipient` JSON schema: a required
`email` and an optional display `name` (`additionalProperties: false`). -/
structure Recipient where
  email : String
  name : Option String
deriving DecidableEq, Repr

/-- JS falsiness of an optional string field: `undefined` and `""` are
falsy, every other string is truthy. -/
def isFalsy : Option String → Bool
  | none => true
  | some s => s == ""

/-- `a || b` on possibly-undefined strings, as in
`userFromName || defaultFromName || "No-Reply"`. -/
def orFalsy (a : Option String) (b : String) : String :=
  match a with
  | some s => if s == "" then b else s
  | none => b

/-- The formatter at line 265:
`const fmt = (r) => (r.name ? `"${r.name}" <${r.email}>` : r.email)`. -/
def fmt (r : Recipient) : String :=
  match r.name with
  | some n => if n == "" then r.email else "\"" ++ n ++ "\" <" ++ r.email ++ ">"
  | none => r.email

/-- The `from` header template literal: `"${displayName}" <${defaultFromEmail}>`. -/
def mkFrom (displayName email : String) : String :=
  "\"" ++ displayName ++ "\" <" ++ email ++ ">"

/-- A template context: a string-to-string mapping, embedded as an
association list whose lookup takes the first match. -/
abbrev Ctx := List (String × String)

/-- The own enumerable fields of a recipient object, as produced by the
spread `{ ...r }`: `email` always, `name` exactly when the field is set. -/
def toCtx (r : Recipient) : Ctx :=
  ("email", r.email) :: (match r.name with
    | some n => [("name", n)]
    | none => [])

/-- `{ ...context, ...r }` at line 309: keys of the recipient override keys
of the global context. With first-match lookup this is the recipient fields
put in front. -/
def mergeCtx (context : Ctx) (r : Recipient) : Ctx :=
  toCtx r ++ context

/-- Two contexts denote the same mapping when every key looks up equally. -/
def CtxEquiv (a b : Ctx) : Prop :=
  ∀ k : String, a.lookup k = b.lookup k

/-- A symbolic message body. `templated` carries the `template` name and the
`context` object passed to `sendMail` (rendering is done by the handlebars
plugin inside the transporter). `htmlRaw` is the request `html` field passed
through untouched. `htmlRendered` is `htmlTemplate(·)` output: the compiled
raw-HTML template together with the context it was applied to (`none` when
`htmlTemplate` stayed `null`). -/
inductive Content where
  | templated (template : String) (context : Ctx)
  | htmlRaw (html : Option String)
  | htmlRendered (rendered : Option (String × Ctx))
deriving DecidableEq, Repr

/-- Equivalence of symbolic bodies: same source, contexts equal as mappings. -/
def ContentEquiv : Content → Content → Prop
  | .templated t1 c1, .templated t2 c2 => t1 = t2 ∧ CtxEquiv c1 c2
  | .htmlRaw h1, .htmlRaw h2 => h1 = h2
  | .htmlRendered none, .htmlRendered none => True
  | .htmlRendered (some (h1, c1)), .htmlRendered (some (h2, c2)) => h1 = h2 ∧ CtxEquiv c1 c2
  | _, _ => False

/-- One argument to `transporterInstance.sendMail`. -/
structure Message where
  fromAddr : String
  toAddr : Option String := none
  bcc : Option String := none
  subject : String
  content : Content
deriving DecidableEq, Repr

/-- A successful transport response: `{ messageId, accepted, rejected }`. -/
structure SendInfo where
  messageId : String
  accepted : List String
  rejected : List String
deriving DecidableEq, Repr

/-- An entry pushed onto `ok`. -/
structure OkEntry where
  recipient : String
  messageId : String
  accepted : List String
deriving DecidableEq, Repr

/-- An entry pushed onto `fail`. -/
structure FailEntry where
  recipient : String
  error : String
deriving DecidableEq, Repr

/-- One observable step of the handler: a `sleep` of so many milliseconds,
or a `sendMail` call with its message. -/
inductive Event where
  | sleepMs (ms : Nat)
  | send (m : Message)
deriving DecidableEq, Repr

/-- The JSON body the handler replies with. -/
inductive Resp where
  | configError
  | badRequest
  | bccOk (messageId : String) (accepted rejected : List String)
  | emailSendFailed (message : String)
  | individualReport (ok : List OkEntry) (fail : List FailEntry)
  | delayedReport (totalSent : Nat) (durationSeconds : ℚ) (ok : List OkEntry) (fail : List FailEntry)
deriving DecidableEq, Repr

/-- What one call of the handler does: HTTP status, reply body, transport
calls in order of issue, and the sleep/send trace. -/
structure HandlerResult where
  status : Nat
  response : Resp
  sent : List Message
  events : List Event
deriving DecidableEq, Repr

/-- A validated request body (`SendEmailRequest` schema), with the handler
destructuring defaults `context = {}`, `individual = false`,
`delaySeconds = 0` as field defaults. -/
structure SendRequest where
  recipients : List Recipient
  subject : String
  template : Option String := none
  context : Ctx := []
  html : Option String := none
  userFromName : Option String := none
  individual : Bool := false
  delaySeconds : Nat := 0
deriving DecidableEq, Repr

/-- The transporter factory (lines 179-207): with a missing user or
password (JS falsy) it logs a warning and returns `null`, otherwise it
returns a configured transporter. The SMTP and handlebars wiring of the
transporter is outside this model, so a live transporter is `Unit`. -/
def createTransporter (label : String) (user pass : Option String) : Option Unit :=
  let _ := label
  if isFalsy user || isFalsy pass then none else some ()

/-- The content spread `...(template ? { template, context } : { html })`
used by the concurrent individual branch and the BCC branch: the named
template with the global context unchanged, or the raw `html` field
passed through. -/
def spreadContent (template : Option String) (context : Ctx) (html : Option String) : Content :=
  if isFalsy template then .htmlRaw html else .templated (template.getD "") context

/-- `finalHtml = htmlTemplate ? htmlTemplate(r) : undefined` in the delayed
loop: `htmlTemplate` is `hbs.compile(html)` when `html` is truthy and stays
`null` otherwise, and it is applied to the recipient object `r` alone. -/
def delayedFinalHtml (html : Option String) (r : Recipient) : Option (String × Ctx) :=
  if isFalsy html then none else some (html.getD "", toCtx r)

/-- The message built for one recipient inside the delayed loop
(lines 306-318): `finalContext = template ? { ...context, ...r } : {}` and
the spread `...(template ? { template, context: finalContext } : { html: finalHtml })`. -/
def delayedMessage (fromAddr subject : String) (template : Option String)
    (context : Ctx) (html : Option String) (r : Recipient) : Message :=
  { fromAddr := fromAddr
    toAddr := some (fmt r)
    subject := subject
    content :=
      if isFalsy template then .htmlRendered (delayedFinalHtml html r)
      else .templated (template.getD "") (mergeCtx context r) }

/-- Accumulator of the delayed loop: the `ok`, `fail` arrays, the effect
traces, and the millisecond clock started at `startTime`. -/
structure LoopState where
  ok : List OkEntry
  fail : List FailEntry
  sent : List Message
  events : List Event
  clockMs : Nat
deriving DecidableEq, Repr

/-- The delayed sequential loop (lines 299-331):
`for (const [index, r] of recipients.entries())`, sleeping
`delaySeconds * 1000` ms before every iteration with `index > 0`, then
awaiting one `sendMail` whose success or failure is pushed onto `ok`
respectively `fail`; either way the loop continues. -/
def delayedLoop (fromAddr subject : String) (template : Option String)
    (context : Ctx) (html : Option String) (delaySeconds : Nat)
    (outcomes : Nat → Except String SendInfo) (sendTimesMs : Nat → Nat) :
    Nat → List Recipient → LoopState → LoopState
  | _, [], st => st
  | index, r :: rest, st =>
    let st1 :=
      if index > 0 then
        { st with
          events := st.events ++ [Event.sleepMs (delaySeconds * 1000)]
          clockMs := st.clockMs + delaySeconds * 1000 }
      else st
    let m := delayedMessage fromAddr subject template context html r
    let st2 :=
      { st1 with
        sent := st1.sent ++ [m]
        events := st1.events ++ [Event.send m]
        clockMs := st1.clockMs + sendTimesMs index }
    let st3 :=
      match outcomes index with
      | .ok info => { st2 with ok := st2.ok ++ [⟨r.email, info.messageId, info.accepted⟩] }
      | .error e => { st2 with fail := st2.fail ++ [⟨r.email, e⟩] }
    delayedLoop fromAddr subject template context html delaySeconds outcomes sendTimesMs
      (index + 1) rest st3

/-- The message built for one recipient by the concurrent branch
(lines 346-351): named template with the global context unchanged, or the
raw `html` passed through. -/
def parallelMessage (fromAddr subject : String) (template : Option String)
    (context : Ctx) (html : Option String) (r : Recipient) : Message :=
  { fromAddr := fromAddr
    toAddr := some (fmt r)
    subject := subject
    content := spreadContent template context html }

/-- The single message of the BCC branch (lines 376-382). -/
def bccMessage (fromAddr subject : String) (template : Option String)
    (context : Ctx) (html : Option String) (recipients : List Recipient) : Message :=
  { fromAddr := fromAddr
    bcc := some (String.intercalate ", " (recipients.map fmt))
    subject := subject
    content := spreadContent template context html }

/-- `Promise.allSettled(recipients.map(...))`: the promises may settle in
any order, but the results array is indexed by input position, so its i-th
entry is the outcome of the i-th transport call. -/
def allSettled (outcomes : Nat → Except String SendInfo) (n : Nat) :
    List (Except String SendInfo) :=
  (List.range n).map outcomes

/-- `results.forEach((res, idx) => ...)` (lines 355-369): walk the settled
results by input index, pushing fulfilled ones onto `ok` and rejected ones
onto `fail`, each tagged with `recipients[idx].email`. -/
def aggregateByIndex : List Recipient → List (Except String SendInfo) →
    List OkEntry × List FailEntry
  | r :: rs, res :: more =>
    let rest := aggregateByIndex rs more
    match res with
    | .ok info => (⟨r.email, info.messageId, info.accepted⟩ :: rest.1, rest.2)
    | .error e => (rest.1, ⟨r.email, e⟩ :: rest.2)
  | _, _ => ([], [])

/-- The request handler produced by `createSendHandler(transporterInstance,
defaultFromEmail, defaultFromName)` (lines 239-398).

Totality of this function embeds the absence of a crash: every request gets
an HTTP response. The i-th transport call returns `outcomes i` and takes
`sendTimesMs i` milliseconds of wall clock. -/
def createSendHandler (transporterInstance : Option Unit)
    (defaultFromEmail : String) (defaultFromName : Option String)
    (outcomes : Nat → Except String SendInfo) (sendTimesMs : Nat → Nat)
    (req : SendRequest) : HandlerResult :=
  match transporterInstance with
  | none =>
    { status := 500, response := .configError, sent := [], events := [] }
  | some _ =>
    let displayName := orFalsy req.userFromName (orFalsy defaultFromName "No-Reply")
    let fromAddr := mkFrom displayName defaultFromEmail
    if isFalsy req.template && isFalsy req.html then
      { status := 400, response := .badRequest, sent := [], events := [] }
    else if req.individual || decide (req.delaySeconds > 0) then
      if req.delaySeconds > 0 then
        let final := delayedLoop fromAddr req.subject req.template req.context req.html
          req.delaySeconds outcomes sendTimesMs 0 req.recipients ⟨[], [], [], [], 0⟩
        { status := 207
          response := .delayedReport final.ok.length ((final.clockMs : ℚ) / 1000)
            final.ok final.fail
          sent := final.sent
          events := final.events }
      else
        let msgs := req.recipients.map
          (parallelMessage fromAddr req.subject req.template req.context req.html)
        let results := allSettled outcomes req.recipients.length
        let agg := aggregateByIndex req.recipients results
        { status := 207
          response := .individualReport agg.1 agg.2
          sent := msgs
          events := msgs.map Event.send }
    else
      let m := bccMessage fromAddr req.subject req.template req.context req.html req.recipients
      match outcomes 0 with
      | .ok info =>
        { status := 200
          response := .bccOk info.messageId info.accepted info.rejected
          sent := [m]
          events := [Event.send m] }
      | .error e =>
        { status := 500
          response := .emailSendFailed e
          sent := [m]
          events := [Event.send m] }

/-- The three dispatch modes. -/
inductive Mode where
  | bcc
  | individual
  | individual_delayed
deriving DecidableEq, Repr

/-- The mode selection branching of the handler (lines 282, 294, 373):
`if (individual || delaySeconds > 0)` with the inner
`if (delaySeconds > 0)`, else the BCC branch. -/
def selectMode (individual : Bool) (delaySeconds : Nat) : Mode :=
  if individual || decide (delaySeconds > 0) then
    if delaySeconds > 0 then .individual_delayed else .individual
  else .bcc

/-! Characterizations used in the theorems: the `ok` and `fail` lists that
both individual branches produce, read off in input order, and the closed
forms of the delayed-loop trace and clock. Each is proven equal to the
corresponding piece of `createSendHandler` below. -/

/-- The success entries that the transport outcomes starting at call
`index` yield for the given recipients, in input-list order. -/
def okInOrder (outcomes : Nat → Except String SendInfo) :
    Nat → List Recipient → List OkEntry
  | _, [] => []
  | index, r :: rest =>
    (match outcomes index with
      | .ok info => [⟨r.email, info.messageId, info.accepted⟩]
      | .error _ => []) ++ okInOrder outcomes (index + 1) rest

/-- The failure entries, in input-list order. -/
def failInOrder (outcomes : Nat → Except String SendInfo) :
    Nat → List Recipient → List FailEntry
  | _, [] => []
  | index, r :: rest =>
    (match outcomes index with
      | .ok _ => []
      | .error e => [⟨r.email, e⟩]) ++ failInOrder outcomes (index + 1) rest

/-- The sleep/send trace the delayed loop appends from iteration `index`
on: a sleep before every iteration with `index > 0`, then the send. -/
def delayedEventsFrom (fromAddr subject : String) (template : Option String)
    (context : Ctx) (html : Option String) (delaySeconds : Nat) :
    Nat → List Recipient → List Event
  | _, [] => []
  | index, r :: rest =>
    (if index > 0 then [Event.sleepMs (delaySeconds * 1000)] else []) ++
      Event.send (delayedMessage fromAddr subject template context html r) ::
        delayedEventsFrom fromAddr subject template context html delaySeconds (index + 1) rest

/-- The milliseconds the delayed loop takes from iteration `index` on. -/
def delayedClockFrom (delaySeconds : Nat) (sendTimesMs : Nat → Nat) :
    Nat → List Recipient → Nat
  | _, [] => 0
  | index, _ :: rest =>
    (if index > 0 then delaySeconds * 1000 else 0) + sendTimesMs index +
      delayedClockFrom delaySeconds sendTimesMs (index + 1) rest

/-! Definitions following the words of the specification rather than the
code, used only to compare spec and code where they disagree. -/

/-- Modelled from the spec, §4.3 Content Resolver: in the individual modes
the content for a recipient is the named template handed the merged context
(global context overridden key-by-key by the recipient fields), or the raw
HTML rendered against the same merged context with the same templating
semantics. -/
def specIndividualContent (template : Option String) (context : Ctx)
    (html : Option String) (r : Recipient) : Content :=
  if isFalsy template then .htmlRendered (some (html.getD "", mergeCtx context r))
  else .templated (template.getD "") (mergeCtx context r)

/-- Modelled from the spec, §4.5 Result Aggregator: the `ok` list that
concurrent individual mode would produce if it followed completion order.
`settleOrder` lists the recipient indices in the order in which their
sends complete in one run. -/
def okByCompletionOrder (recipients : List Recipient)
    (outcomes : Nat → Except String SendInfo) (settleOrder : List Nat) : List OkEntry :=
  settleOrder.filterMap (fun i =>
    match recipients.get? i, outcomes i with
    | some r, .ok info => some ⟨r.email, info.messageId, info.accepted⟩
    | _, _ => none)

/-- Whether an event is a sleep. -/
def Event.isSleep : Event → Bool
  | .sleepMs _ => true
  | .send _ => false

/-! ### Lemmas about the delayed loop and the aggregator -/

theorem delayedLoop_eq (fromAddr subject : String) (template : Option String)
    (context : Ctx) (html : Option String) (delaySeconds : Nat)
    (outcomes : Nat → Except String SendInfo) (sendTimesMs : Nat → Nat)
    (rs : List Recipient) : ∀ (index : Nat) (st : LoopState),
    delayedLoop fromAddr subject template context html delaySeconds outcomes sendTimesMs
      index rs st =
    { ok := st.ok ++ okInOrder outcomes index rs
      fail := st.fail ++ failInOrder outcomes index rs
      sent := st.sent ++ rs.map (delayedMessage fromAddr subject template context html)
      events := st.events ++
        delayedEventsFrom fromAddr subject template context html delaySeconds index rs
      clockMs := st.clockMs + delayedClockFrom delaySeconds sendTimesMs index rs } := by
  induction rs with
  | nil =>
    intro index st
    simp [delayedLoop, okInOrder, failInOrder, delayedEventsFrom, delayedClockFrom]
  | cons r rest ih =>
    intro index st
    rcases houtcome : outcomes index with e | info <;>
      by_cases hidx : index > 0 <;>
        simp [delayedLoop, ih, okInOrder, failInOrder, delayedEventsFrom, delayedClockFrom,
          houtcome, hidx, Nat.add_assoc]

theorem okInOrder_succ (outcomes : Nat → Except String SendInfo)
    (rs : List Recipient) : ∀ i : Nat,
    okInOrder outcomes (i + 1) rs = okInOrder (fun j => outcomes (j + 1)) i rs := by
  induction rs with
  | nil => intro i; simp [okInOrder]
  | cons r rest ih => intro i; simp [okInOrder, ih]

theorem failInOrder_succ (outcomes : Nat → Except String SendInfo)
    (rs : List Recipient) : ∀ i : Nat,
    failInOrder outcomes (i + 1) rs = failInOrder (fun j => outcomes (j + 1)) i rs := by
  induction rs with
  | nil => intro i; simp [failInOrder]
  | cons r rest ih => intro i; simp [failInOrder, ih]

theorem aggregateByIndex_eq (rs : List Recipient) :
    ∀ outcomes : Nat → Except String SendInfo,
    aggregateByIndex rs ((List.range rs.length).map outcomes) =
      (okInOrder outcomes 0 rs, failInOrder outcomes 0 rs) := by
  induction rs with
  | nil => intro outcomes; simp [aggregateByIndex, okInOrder, failInOrder]
  | cons r rest ih =>
    intro outcomes
    rw [List.length_cons, List.range_succ_eq_map]
    have hcomp : outcomes ∘ Nat.succ = fun j => outcomes (j + 1) := rfl
    rcases houtcome : outcomes 0 with e | info <;>
      simp [aggregateByIndex, okInOrder, failInOrder, houtcome, hcomp,
        ih (fun j => outcomes (j + 1)), okInOrder_succ, failInOrder_succ]

theorem delayedEventsFrom_pos (fromAddr subject : String) (template : Option String)
    (context : Ctx) (html : Option String) (delaySeconds : Nat) (rs : List Recipient) :
    ∀ i : Nat, 0 < i →
    delayedEventsFrom fromAddr subject template context html delaySeconds i rs =
      rs.flatMap (fun r => [Event.sleepMs (delaySeconds * 1000),
        Event.send (delayedMessage fromAddr subject template context html r)]) := by
  induction rs with
  | nil => intro i hi; simp [delayedEventsFrom]
  | cons r rest ih =>
    intro i hi
    simp [delayedEventsFrom, hi, ih (i + 1) (Nat.succ_pos i)]

theorem delayedClockFrom_pos (delaySeconds : Nat) (sendTimesMs : Nat → Nat)
    (rs : List Recipient) : ∀ i : Nat, 0 < i →
    delayedClockFrom delaySeconds sendTimesMs i rs =
      rs.length * (delaySeconds * 1000) +
        ∑ j ∈ Finset.range rs.length, sendTimesMs (i + j) := by
  induction rs with
  | nil => intro i hi; simp [delayedClockFrom]
  | cons r rest ih =>
    intro i hi
    rw [delayedClockFrom, if_pos hi, ih (i + 1) (Nat.succ_pos i)]
    rw [List.length_cons, Finset.sum_range_succ']
    have hsum : ∑ j ∈ Finset.range rest.length, sendTimesMs (i + 1 + j)
        = ∑ j ∈ Finset.range rest.length, sendTimesMs (i + (j + 1)) :=
      Finset.sum_congr rfl (fun j _ => congrArg sendTimesMs (by omega))
    rw [hsum, Nat.add_zero]
    ring_nf
    omega

theorem delayedClockFrom_zero (delaySeconds : Nat) (sendTimesMs : Nat → Nat)
    (rs : List Recipient) :
    delayedClockFrom delaySeconds sendTimesMs 0 rs =
      (rs.length - 1) * (delaySeconds * 1000) +
        ∑ i ∈ Finset.range rs.length, sendTimesMs i := by
  cases rs with
  | nil => simp [delayedClockFrom]
  | cons r rest =>
    rw [delayedClockFrom, if_neg (by omega),
      delayedClockFrom_pos delaySeconds sendTimesMs rest 1 Nat.one_pos]
    rw [List.length_cons, Finset.sum_range_succ']
    have hsum : ∑ j ∈ Finset.range rest.length, sendTimesMs (1 + j)
        = ∑ j ∈ Finset.range rest.length, sendTimesMs (j + 1) :=
      Finset.sum_congr rfl (fun j _ => congrArg sendTimesMs (Nat.add_comm 1 j))
    rw [hsum, Nat.succ_sub_one]
    ring

theorem okInOrder_length_add (outcomes : Nat → Except String SendInfo)
    (rs : List Recipient) : ∀ i : Nat,
    (okInOrder outcomes i rs).length + (failInOrder outcomes i rs).length = rs.length := by
  induction rs with
  | nil => intro i; simp [okInOrder, failInOrder]
  | cons r rest ih =>
    intro i
    have h := ih (i + 1)
    rcases houtcome : outcomes i with e | info <;>
      simp [okInOrder, failInOrder, houtcome] <;> omega

theorem okInOrder_count (outcomes : Nat → Except String SendInfo)
    (rs : List Recipient) : ∀ (i : Nat) (em : String),
    ((okInOrder outcomes i rs).map OkEntry.recipient).count em +
      ((failInOrder outcomes i rs).map FailEntry.recipient).count em =
      (rs.map Recipient.email).count em := by
  induction rs with
  | nil => intro i em; simp [okInOrder, failInOrder]
  | cons r rest ih =>
    intro i em
    have := ih (i + 1) em
    rcases houtcome : outcomes i with e | info <;>
      simp [okInOrder, failInOrder, houtcome, List.count_cons] <;>
        omega

/-! ### Unfolding the handler branch by branch -/

theorem handler_config_none (e : String) (n : Option String)
    (o : Nat → Except String SendInfo) (s : Nat → Nat) (req : SendRequest) :
    createSendHandler none e n o s req =
      { status := 500, response := .configError, sent := [], events := [] } := rfl

theorem handler_badRequest (e : String) (n : Option String)
    (o : Nat → Except String SendInfo) (s : Nat → Nat) (req : SendRequest)
    (hcontent : (isFalsy req.template && isFalsy req.html) = true) :
    createSendHandler (some ()) e n o s req =
      { status := 400, response := .badRequest, sent := [], events := [] } := by
  simp [createSendHandler, hcontent]

theorem handler_delayed_eq (e : String) (n : Option String)
    (o : Nat → Except String SendInfo) (s : Nat → Nat) (req : SendRequest)
    (hcontent : (isFalsy req.template && isFalsy req.html) = false)
    (hd : 0 < req.delaySeconds) :
    createSendHandler (some ()) e n o s req =
      { status := 207
        response := .delayedReport (okInOrder o 0 req.recipients).length
          ((delayedClockFrom req.delaySeconds s 0 req.recipients : ℚ) / 1000)
          (okInOrder o 0 req.recipients) (failInOrder o 0 req.recipients)
        sent := req.recipients.map (delayedMessage
          (mkFrom (orFalsy req.userFromName (orFalsy n "No-Reply")) e)
          req.subject req.template req.context req.html)
        events := delayedEventsFrom
          (mkFrom (orFalsy req.userFromName (orFalsy n "No-Reply")) e)
          req.subject req.template req.context req.html req.delaySeconds
          0 req.recipients } := by
  simp [createSendHandler, hcontent, hd, delayedLoop_eq]

theorem handler_parallel_eq (e : String) (n : Option String)
    (o : Nat → Except String SendInfo) (s : Nat → Nat) (req : SendRequest)
    (hcontent : (isFalsy req.template && isFalsy req.html) = false)
    (hind : req.individual = true) (hd0 : req.delaySeconds = 0) :
    createSendHandler (some ()) e n o s req =
      { status := 207
        response := .individualReport (okInOrder o 0 req.recipients)
          (failInOrder o 0 req.recipients)
        sent := req.recipients.map (parallelMessage
          (mkFrom (orFalsy req.userFromName (orFalsy n "No-Reply")) e)
          req.subject req.template req.context req.html)
        events := (req.recipients.map (parallelMessage
          (mkFrom (orFalsy req.userFromName (orFalsy n "No-Reply")) e)
          req.subject req.template req.context req.html)).map Event.send } := by
  simp [createSendHandler, hcontent, hind, hd0, allSettled, aggregateByIndex_eq]

theorem handler_bcc_ok (e : String) (n : Option String)
    (o : Nat → Except String SendInfo) (s : Nat → Nat) (req : SendRequest)
    (hcontent : (isFalsy req.template && isFalsy req.html) = false)
    (hind : req.individual = false) (hd0 : req.delaySeconds = 0)
    (info : SendInfo) (houtcome : o 0 = .ok info) :
    createSendHandler (some ()) e n o s req =
      { status := 200
        response := .bccOk info.messageId info.accepted info.rejected
        sent := [bccMessage (mkFrom (orFalsy req.userFromName (orFalsy n "No-Reply")) e)
          req.subject req.template req.context req.html req.recipients]
        events := [Event.send (bccMessage
          (mkFrom (orFalsy req.userFromName (orFalsy n "No-Reply")) e)
          req.subject req.template req.context req.html req.recipients)] } := by
  simp [createSendHandler, hcontent, hind, hd0, houtcome]

theorem handler_bcc_err (e : String) (n : Option String)
    (o : Nat → Except String SendInfo) (s : Nat → Nat) (req : SendRequest)
    (hcontent : (isFalsy req.template && isFalsy req.html) = false)
    (hind : req.individual = false) (hd0 : req.delaySeconds = 0)
    (msg : String) (houtcome : o 0 = .error msg) :
    createSendHandler (some ()) e n o s req =
      { status := 500
        response := .emailSendFailed msg
        sent := [bccMessage (mkFrom (orFalsy req.userFromName (orFalsy n "No-Reply")) e)
          req.subject req.template req.context req.html req.recipients]
        events := [Event.send (bccMessage
          (mkFrom (orFalsy req.userFromName (orFalsy n "No-Reply")) e)
          req.subject req.template req.context req.html req.recipients)] } := by
  simp [createSendHandler, hcontent, hind, hd0, houtcome]

/-- Every message any branch hands to the transport carries the `from`
header built from the resolved display name and the configured account
email. -/
theorem sent_fromAddr (e : String) (n : Option String)
    (o : Nat → Except String SendInfo) (s : Nat → Nat) (req : SendRequest) :
    ∀ m ∈ (createSendHandler (some ()) e n o s req).sent,
      m.fromAddr = mkFrom (orFalsy req.userFromName (orFalsy n "No-Reply")) e := by
  intro m hm
  by_cases hcontent : (isFalsy req.template && isFalsy req.html) = true
  · rw [handler_badRequest e n o s req hcontent] at hm
    simp at hm
  · rw [Bool.not_eq_true] at hcontent
    by_cases hd : 0 < req.delaySeconds
    · rw [handler_delayed_eq e n o s req hcontent hd] at hm
      simp only [List.mem_map] at hm
      obtain ⟨r, -, rfl⟩ := hm
      rfl
    · have hd0 : req.delaySeconds = 0 := by omega
      by_cases hind : req.individual = true
      · rw [handler_parallel_eq e n o s req hcontent hind hd0] at hm
        simp only [List.mem_map] at hm
        obtain ⟨r, -, rfl⟩ := hm
        rfl
      · rw [Bool.not_eq_true] at hind
        rcases houtcome : o 0 with msg | info
        · rw [handler_bcc_err e n o s req hcontent hind hd0 msg houtcome] at hm
          simp only [List.mem_singleton] at hm
          subst hm
          rfl
        · rw [handler_bcc_ok e n o s req hcontent hind hd0 info houtcome] at hm
          simp only [List.mem_singleton] at hm
          subst hm
          rfl

/-! ### The claims -/

/-- C1: Delivery mode selection is the pure, deterministic, total function:
delaySeconds > 0 selects individual_delayed; otherwise the individual flag
selects individual; otherwise bcc. A positive delay never selects BCC, and
the handler then puts no blind-copy field on any dispatched message. -/
theorem mode_selection_rule :
    (∀ (individual : Bool) (delaySeconds : Nat),
      selectMode individual delaySeconds =
        if 0 < delaySeconds then Mode.individual_delayed
        else if individual then Mode.individual else Mode.bcc)
    ∧ (∀ (individual : Bool) (delaySeconds : Nat),
        0 < delaySeconds → selectMode individual delaySeconds ≠ Mode.bcc)
    ∧ (∀ (e : String) (n : Option String) (o : Nat → Except String SendInfo)
        (s : Nat → Nat) (req : SendRequest), 0 < req.delaySeconds →
        ∀ m ∈ (createSendHandler (some ()) e n o s req).sent, m.bcc = none) := by
  refine ⟨?_, ?_, ?_⟩
  · intro individual delaySeconds
    by_cases hd : 0 < delaySeconds <;> cases individual <;> simp [selectMode, hd]
  · intro individual delaySeconds hd
    simp [selectMode, hd]
  · intro e n o s req hd m hm
    by_cases hcontent : (isFalsy req.template && isFalsy req.html) = true
    · rw [handler_badRequest e n o s req hcontent] at hm
      simp at hm
    · rw [Bool.not_eq_true] at hcontent
      rw [handler_delayed_eq e n o s req hcontent hd] at hm
      simp only [List.mem_map] at hm
      obtain ⟨r, -, rfl⟩ := hm
      rfl

/-- Witness for C1 at individual = false, delaySeconds = 3 and a concrete
one-recipient request. -/
theorem mode_selection_rule_witness :
    selectMode false 3 = Mode.individual_delayed
    ∧ selectMode false 3 ≠ Mode.bcc
    ∧ ∀ m ∈ (createSendHandler (some ()) "acc@example.com" none
        (fun _ => Except.ok ⟨"mid", [], []⟩) (fun _ => 5)
        { recipients := [⟨"a@b.c", none⟩], subject := "s", html := some "x",
          delaySeconds := 3 }).sent, m.bcc = none := by
  refine ⟨?_, ?_, ?_⟩
  · simpa using mode_selection_rule.1 false 3
  · exact mode_selection_rule.2.1 false 3 (by decide)
  · exact mode_selection_rule.2.2 "acc@example.com" none _ _ _ (by decide)

/-- C6: HTTP statuses: always 207 in both individual modes, whatever the
outcomes are; 200 for a BCC-mode success; 500 for a BCC-mode failure. -/
theorem status_codes (e : String) (n : Option String)
    (o : Nat → Except String SendInfo) (s : Nat → Nat) (req : SendRequest)
    (hcontent : (isFalsy req.template && isFalsy req.html) = false) :
    ((req.individual = true ∨ 0 < req.delaySeconds) →
      (createSendHandler (some ()) e n o s req).status = 207)
    ∧ (req.individual = false → req.delaySeconds = 0 →
        ∀ info : SendInfo, o 0 = .ok info →
          (createSendHandler (some ()) e n o s req).status = 200)
    ∧ (req.individual = false → req.delaySeconds = 0 →
        ∀ msg : String, o 0 = .error msg →
          (createSendHandler (some ()) e n o s req).status = 500) := by
  refine ⟨?_, ?_, ?_⟩
  · intro hmode
    by_cases hd : 0 < req.delaySeconds
    · rw [handler_delayed_eq e n o s req hcontent hd]
    · have hd0 : req.delaySeconds = 0 := by omega
      have hind : req.individual = true := by
        rcases hmode with h | h
        · exact h
        · omega
      rw [handler_parallel_eq e n o s req hcontent hind hd0]
  · intro hind hd0 info houtcome
    rw [handler_bcc_ok e n o s req hcontent hind hd0 info houtcome]
  · intro hind hd0 msg houtcome
    rw [handler_bcc_err e n o s req hcontent hind hd0 msg houtcome]

/-- Witness for C6 on concrete requests: a two-recipient individual request
with one failing send still gets 207; a BCC request gets 200 when the single
send succeeds and 500 when it fails. -/
theorem status_codes_witness :
    (createSendHandler (some ()) "acc@example.com" none
      (fun i => if i == 0 then Except.ok ⟨"m0", [], []⟩ else Except.error "boom")
      (fun _ => 5)
      { recipients := [⟨"a@b.c", none⟩, ⟨"d@e.f", none⟩], subject := "s",
        html := some "x", individual := true }).status = 207
    ∧ (createSendHandler (some ()) "acc@example.com" none
        (fun _ => Except.ok ⟨"m0", [], []⟩) (fun _ => 5)
        { recipients := [⟨"a@b.c", none⟩], subject := "s", html := some "x" }).status = 200
    ∧ (createSendHandler (some ()) "acc@example.com" none
        (fun _ => Except.error "boom") (fun _ => 5)
        { recipients := [⟨"a@b.c", none⟩], subject := "s", html := some "x" }).status = 500 := by
  refine ⟨?_, ?_, ?_⟩
  · exact (status_codes "acc@example.com" none _ _ _ (by decide)).1 (Or.inl rfl)
  · exact (status_codes "acc@example.com" none _ _ _ (by decide)).2.1 rfl rfl _ rfl
  · exact (status_codes "acc@example.com" none _ _ _ (by decide)).2.2 rfl rfl _ rfl

/-- C8: With credentials missing (or empty, which JS treats the same) the
factory returns null, and every request to the handler built over it gets
the 500 configuration error with an empty transport trace, so the error
surfaces before any send attempt. The handler is a total function of the
request, which embeds the absence of a crash. -/
theorem missing_credentials_config_error (label : String) (user pass : Option String)
    (hmiss : (isFalsy user || isFalsy pass) = true) :
    createTransporter label user pass = none
    ∧ ∀ (e : String) (n : Option String) (o : Nat → Except String SendInfo)
        (s : Nat → Nat) (req : SendRequest),
        createSendHandler (createTransporter label user pass) e n o s req =
          { status := 500, response := .configError, sent := [], events := [] } := by
  have hnone : createTransporter label user pass = none := by
    simp only [createTransporter]
    rw [if_pos hmiss]
  exact ⟨hnone, fun e n o s req => by rw [hnone]; rfl⟩

/-- Witness for C8: no SMTP user in the environment. -/
theorem missing_credentials_config_error_witness :
    createTransporter "MAIN" none (some "secret") = none
    ∧ createSendHandler (createTransporter "MAIN" none (some "secret")) "acc@example.com"
        none (fun _ => Except.ok ⟨"mid", [], []⟩) (fun _ => 5)
        { recipients := [⟨"a@b.c", none⟩], subject := "s", html := some "x" } =
        { status := 500, response := .configError, sent := [], events := [] } :=
  ⟨(missing_credentials_config_error "MAIN" none (some "secret") (by decide)).1,
   (missing_credentials_config_error "MAIN" none (some "secret") (by decide)).2
     "acc@example.com" none _ _ _⟩

/-- C9: A request supplying neither a template name nor raw HTML is answered
with the 400 validation error on a configured endpoint, and the transport
trace is empty: nothing is rendered and nothing is sent. -/
theorem missing_content_bad_request (e : String) (n : Option String)
    (o : Nat → Except String SendInfo) (s : Nat → Nat) (req : SendRequest)
    (ht : req.template = none) (hh : req.html = none) :
    createSendHandler (some ()) e n o s req =
      { status := 400, response := .badRequest, sent := [], events := [] } :=
  handler_badRequest e n o s req (by rw [ht, hh]; rfl)

/-- Witness for C9 on a concrete request with both content fields absent. -/
theorem missing_content_bad_request_witness :
    createSendHandler (some ()) "acc@example.com" none
      (fun _ => Except.ok ⟨"mid", [], []⟩) (fun _ => 5)
      { recipients := [⟨"a@b.c", none⟩], subject := "s", individual := true } =
      { status := 400, response := .badRequest, sent := [], events := [] } :=
  missing_content_bad_request "acc@example.com" none _ _ _ rfl rfl

/-- C10: Every dispatched message, in every mode, carries the `from` header
built from the resolved display name and the configured account email, so
the sender email is always `defaultFromEmail`; the request `from` field can
only change the quoted display name, and two requests differing only in
`from` yield messages whose sender email component is the same. -/
theorem sender_email_fixed (e : String) (n : Option String)
    (o : Nat → Except String SendInfo) (s : Nat → Nat) (req : SendRequest) :
    (∀ m ∈ (createSendHandler (some ()) e n o s req).sent,
      m.fromAddr = mkFrom (orFalsy req.userFromName (orFalsy n "No-Reply")) e)
    ∧ ∀ f1 f2 : Option String,
        ∀ m1 ∈ (createSendHandler (some ()) e n o s { req with userFromName := f1 }).sent,
        ∀ m2 ∈ (createSendHandler (some ()) e n o s { req with userFromName := f2 }).sent,
        ∃ d1 d2 : String, m1.fromAddr = mkFrom d1 e ∧ m2.fromAddr = mkFrom d2 e := by
  refine ⟨sent_fromAddr e n o s req, ?_⟩
  intro f1 f2 m1 hm1 m2 hm2
  exact ⟨_, _, sent_fromAddr e n o s _ m1 hm1, sent_fromAddr e n o s _ m2 hm2⟩

/-- Witness for C10: a concrete BCC request whose `from` field is set still
sends from the configured account email. -/
theorem sender_email_fixed_witness :
    (bccMessage (mkFrom "Marketing Team" "acc@example.com") "s" none [] (some "x")
      [⟨"a@b.c", none⟩]).fromAddr = mkFrom "Marketing Team" "acc@example.com" :=
  (sender_email_fixed "acc@example.com" (some "Def")
    (fun _ => Except.ok ⟨"mid", [], []⟩) (fun _ => 5)
    { recipients := [⟨"a@b.c", none⟩], subject := "s", html := some "x",
      userFromName := some "Marketing Team" }).1 _ (by decide)

/-- C2: In concurrent individual mode there is exactly one transport call per
recipient, addressed to that recipient; the list of calls does not depend on
the outcomes, so one failing send never prevents the other attempts; and the
collected `ok` and `fail` lists partition the recipients: their lengths add
up to the recipient count and every recipient email occurs in `ok` and
`fail` together exactly as often as in the input list. -/
theorem individual_mode_partition (e : String) (n : Option String)
    (o : Nat → Except String SendInfo) (s : Nat → Nat) (req : SendRequest)
    (hcontent : (isFalsy req.template && isFalsy req.html) = false)
    (hind : req.individual = true) (hd0 : req.delaySeconds = 0) :
    (createSendHandler (some ()) e n o s req).sent.length = req.recipients.length
    ∧ (createSendHandler (some ()) e n o s req).sent.map Message.toAddr
        = req.recipients.map (fun r => some (fmt r))
    ∧ (∀ o2 : Nat → Except String SendInfo,
        (createSendHandler (some ()) e n o2 s req).sent
          = (createSendHandler (some ()) e n o s req).sent)
    ∧ ∃ ok fail, (createSendHandler (some ()) e n o s req).response =
          .individualReport ok fail
        ∧ ok.length + fail.length = req.recipients.length
        ∧ ∀ em : String,
            (ok.map OkEntry.recipient).count em + (fail.map FailEntry.recipient).count em
              = (req.recipients.map Recipient.email).count em := by
  rw [handler_parallel_eq e n o s req hcontent hind hd0]
  refine ⟨by simp, ?_, ?_, okInOrder o 0 req.recipients, failInOrder o 0 req.recipients,
    rfl, okInOrder_length_add o req.recipients 0, fun em => okInOrder_count o req.recipients 0 em⟩
  · simp [parallelMessage]
  · intro o2
    rw [handler_parallel_eq e n o2 s req hcontent hind hd0]

/-- Witness for C2 on a concrete two-recipient request whose second send
fails. -/
theorem individual_mode_partition_witness :
    (createSendHandler (some ()) "acc@example.com" none
      (fun i => if i == 0 then Except.ok ⟨"m0", [], []⟩ else Except.error "boom")
      (fun _ => 5)
      { recipients := [⟨"a@b.c", none⟩, ⟨"d@e.f", some "Dee"⟩], subject := "s",
        html := some "x", individual := true }).sent.length = 2
    ∧ ∃ ok fail,
        (createSendHandler (some ()) "acc@example.com" none
          (fun i => if i == 0 then Except.ok ⟨"m0", [], []⟩ else Except.error "boom")
          (fun _ => 5)
          { recipients := [⟨"a@b.c", none⟩, ⟨"d@e.f", some "Dee"⟩], subject := "s",
            html := some "x", individual := true }).response =
          Resp.individualReport ok fail
        ∧ ok.length + fail.length = 2 := by
  have h := individual_mode_partition "acc@example.com" none
    (fun i => if i == 0 then Except.ok ⟨"m0", [], []⟩ else Except.error "boom")
    (fun _ => 5)
    { recipients := [⟨"a@b.c", none⟩, ⟨"d@e.f", some "Dee"⟩], subject := "s",
      html := some "x", individual := true } (by decide) rfl rfl
  obtain ⟨h1, -, -, ok, fail, h4, h5, -⟩ := h
  exact ⟨h1, ok, fail, h4, h5⟩

/-- C3: In BCC mode exactly one transport call is made; its blind-copy field
is the `fmt`-formatted recipients joined by comma-space, in input order with
input multiplicity (a `map` preserves both); and `fmt` yields
`"Name" <email>` for a recipient with a non-empty name and the bare email
otherwise. -/
theorem bcc_mode_single_call (e : String) (n : Option String)
    (o : Nat → Except String SendInfo) (s : Nat → Nat) (req : SendRequest)
    (hcontent : (isFalsy req.template && isFalsy req.html) = false)
    (hind : req.individual = false) (hd0 : req.delaySeconds = 0) :
    (createSendHandler (some ()) e n o s req).sent.length = 1
    ∧ (∀ m ∈ (createSendHandler (some ()) e n o s req).sent,
        m.bcc = some (String.intercalate ", " (req.recipients.map fmt)))
    ∧ (∀ r : Recipient, r.name = none → fmt r = r.email)
    ∧ (∀ (r : Recipient) (nm : String), r.name = some nm → ¬ nm = "" →
        fmt r = "\"" ++ nm ++ "\" <" ++ r.email ++ ">") := by
  have hbcc : ∀ hr : HandlerResult,
      hr.sent = [bccMessage (mkFrom (orFalsy req.userFromName (orFalsy n "No-Reply")) e)
        req.subject req.template req.context req.html req.recipients] →
      hr.sent.length = 1 ∧
        ∀ m ∈ hr.sent, m.bcc = some (String.intercalate ", " (req.recipients.map fmt)) := by
    intro hr hsent
    rw [hsent]
    refine ⟨rfl, ?_⟩
    intro m hm
    simp only [List.mem_singleton] at hm
    subst hm
    rfl
  refine ⟨?_, ?_, ?_, ?_⟩
  · rcases houtcome : o 0 with msg | info
    · exact (hbcc _ (by rw [handler_bcc_err e n o s req hcontent hind hd0 msg houtcome])).1
    · exact (hbcc _ (by rw [handler_bcc_ok e n o s req hcontent hind hd0 info houtcome])).1
  · rcases houtcome : o 0 with msg | info
    · exact (hbcc _ (by rw [handler_bcc_err e n o s req hcontent hind hd0 msg houtcome])).2
    · exact (hbcc _ (by rw [handler_bcc_ok e n o s req hcontent hind hd0 info houtcome])).2
  · intro r hr
    simp [fmt, hr]
  · intro r nm hr hnm
    simp [fmt, hr, hnm]

/-- Witness for C3 on a concrete two-recipient request, one recipient named,
one not. -/
theorem bcc_mode_single_call_witness :
    (createSendHandler (some ()) "acc@example.com" none
      (fun _ => Except.ok ⟨"m0", [], []⟩) (fun _ => 5)
      { recipients := [⟨"a@b.c", none⟩, ⟨"d@e.f", some "Dee"⟩], subject := "s",
        html := some "x" }).sent.length = 1
    ∧ fmt ⟨"a@b.c", none⟩ = "a@b.c"
    ∧ fmt ⟨"d@e.f", some "Dee"⟩ = "\"Dee\" <d@e.f>" := by
  have h := bcc_mode_single_call "acc@example.com" none
    (fun _ => Except.ok ⟨"m0", [], []⟩) (fun _ => 5)
    { recipients := [⟨"a@b.c", none⟩, ⟨"d@e.f", some "Dee"⟩], subject := "s",
      html := some "x" } (by decide) rfl rfl
  exact ⟨h.1, h.2.2.1 ⟨"a@b.c", none⟩ rfl, h.2.2.2 ⟨"d@e.f", some "Dee"⟩ "Dee" rfl (by decide)⟩

theorem countP_sleep_flatMap (fromAddr subject : String) (template : Option String)
    (context : Ctx) (html : Option String) (delaySeconds : Nat) (rs : List Recipient) :
    (rs.flatMap (fun r => [Event.sleepMs (delaySeconds * 1000),
      Event.send (delayedMessage fromAddr subject template context html r)])).countP
      Event.isSleep = rs.length := by
  induction rs with
  | nil => simp
  | cons r rest ih =>
    simp [List.countP_cons, Event.isSleep, ih]

/-- C5: In delayed mode the observable trace is a send to the first
recipient followed, for every later recipient in input order, by one sleep
of `delaySeconds * 1000` ms and then that send — whatever the outcomes are,
so the sleep also happens after a failure, and N recipients get N-1 sleeps.
The reported durationSeconds is the elapsed wall clock of the whole loop,
`((N-1) delays + all send times) / 1000`, which is at least `(N-1) *
delaySeconds` seconds. -/
theorem delayed_mode_trace (e : String) (n : Option String)
    (o : Nat → Except String SendInfo) (s : Nat → Nat) (req : SendRequest)
    (hcontent : (isFalsy req.template && isFalsy req.html) = false)
    (hd : 0 < req.delaySeconds) :
    ((createSendHandler (some ()) e n o s req).events =
      match req.recipients with
      | [] => []
      | r :: rest =>
        Event.send (delayedMessage
            (mkFrom (orFalsy req.userFromName (orFalsy n "No-Reply")) e)
            req.subject req.template req.context req.html r) ::
          rest.flatMap (fun r2 => [Event.sleepMs (req.delaySeconds * 1000),
            Event.send (delayedMessage
              (mkFrom (orFalsy req.userFromName (orFalsy n "No-Reply")) e)
              req.subject req.template req.context req.html r2)]))
    ∧ (createSendHandler (some ()) e n o s req).events.countP Event.isSleep
        = req.recipients.length - 1
    ∧ (createSendHandler (some ()) e n o s req).sent =
        req.recipients.map (delayedMessage
          (mkFrom (orFalsy req.userFromName (orFalsy n "No-Reply")) e)
          req.subject req.template req.context req.html)
    ∧ (createSendHandler (some ()) e n o s req).response =
        .delayedReport (okInOrder o 0 req.recipients).length
          ((((req.recipients.length - 1) * (req.delaySeconds * 1000)
              + ∑ i ∈ Finset.range req.recipients.length, s i : ℕ) : ℚ) / 1000)
          (okInOrder o 0 req.recipients) (failInOrder o 0 req.recipients)
    ∧ ((req.recipients.length - 1 : ℕ) : ℚ) * req.delaySeconds ≤
        (((req.recipients.length - 1) * (req.delaySeconds * 1000)
            + ∑ i ∈ Finset.range req.recipients.length, s i : ℕ) : ℚ) / 1000 := by
  rw [handler_delayed_eq e n o s req hcontent hd]
  refine ⟨?_, ?_, rfl, ?_, ?_⟩
  · cases req.recipients with
    | nil => simp [delayedEventsFrom]
    | cons r rest =>
      rw [delayedEventsFrom]
      simp [delayedEventsFrom_pos _ req.subject req.template req.context req.html
        req.delaySeconds rest 1 Nat.one_pos]
  · cases req.recipients with
    | nil => simp [delayedEventsFrom]
    | cons r rest =>
      rw [delayedEventsFrom]
      simp [delayedEventsFrom_pos _ req.subject req.template req.context req.html
        req.delaySeconds rest 1 Nat.one_pos, List.countP_cons, Event.isSleep,
        countP_sleep_flatMap]
  · rw [delayedClockFrom_zero]
  · generalize req.recipients.length - 1 = M
    push_cast
    rw [le_div_iff₀ (by norm_num : (0:ℚ) < 1000), mul_assoc]
    exact le_add_of_nonneg_right (Finset.sum_nonneg fun i _ => Nat.cast_nonneg _)

/-- Witness for C5: two recipients, a delay of 2 seconds, the first send
succeeding and the second failing, each send taking 7 ms. -/
theorem delayed_mode_trace_witness :
    (createSendHandler (some ()) "acc@example.com" none
      (fun i => if i == 0 then Except.ok ⟨"m0", [], []⟩ else Except.error "boom")
      (fun _ => 7)
      { recipients := [⟨"a@b.c", none⟩, ⟨"d@e.f", some "Dee"⟩], subject := "s",
        html := some "x", delaySeconds := 2 }).events.countP Event.isSleep = 1
    ∧ ((2 - 1 : ℕ) : ℚ) * 2 ≤
        (((2 - 1) * (2 * 1000) + (7 + 7) : ℕ) : ℚ) / 1000 := by
  have h := delayed_mode_trace "acc@example.com" none
    (fun i => if i == 0 then Except.ok ⟨"m0", [], []⟩ else Except.error "boom")
    (fun _ => 7)
    { recipients := [⟨"a@b.c", none⟩, ⟨"d@e.f", some "Dee"⟩], subject := "s",
      html := some "x", delaySeconds := 2 } (by decide) (by decide)
  refine ⟨h.2.1, ?_⟩
  have h5 := h.2.2.2.2
  simpa [Finset.sum_range_succ] using h5

/-- C4 counterexample: a concurrent-individual request with a named
template. The code passes the global context unchanged to the transport,
and that context is not equivalent as a mapping to the merged context the
claim prescribes, which contains the recipient email under the key
`email`. -/
theorem content_merge_counterexample :
    ((createSendHandler (some ()) "acc@example.com" none
      (fun _ => Except.ok ⟨"m0", [], []⟩) (fun _ => 5)
      { recipients := [⟨"a@b.c", none⟩], subject := "s", template := some "t",
        context := [], individual := true }).sent.map Message.content
      = [Content.templated "t" []])
    ∧ ¬ ContentEquiv (Content.templated "t" [])
        (specIndividualContent (some "t") [] none ⟨"a@b.c", none⟩) := by
  refine ⟨by decide, ?_⟩
  intro hequiv
  have hspec : specIndividualContent (some "t") [] none ⟨"a@b.c", none⟩ =
      Content.templated "t" [("email", "a@b.c")] := rfl
  rw [hspec] at hequiv
  simp only [ContentEquiv] at hequiv
  exact absurd (hequiv.2 "email") (by decide)

/-- C4 amended: per-recipient merging happens only in delayed mode and only
on the named-template path, where the context is the global context
overridden key-by-key by the recipient fields (recipient wins). Raw HTML in
delayed mode is rendered against the recipient object alone, without the
global context. Concurrent individual mode does no per-recipient content
work at all: a named template is sent with the global context unchanged and
raw HTML is passed through unrendered. -/
theorem content_merge_amended (e : String) (n : Option String)
    (o : Nat → Except String SendInfo) (s : Nat → Nat) (req : SendRequest)
    (hcontent : (isFalsy req.template && isFalsy req.html) = false) :
    (0 < req.delaySeconds →
      (createSendHandler (some ()) e n o s req).sent.map Message.content =
        req.recipients.map (fun r =>
          if isFalsy req.template then Content.htmlRendered (delayedFinalHtml req.html r)
          else Content.templated (req.template.getD "") (mergeCtx req.context r)))
    ∧ (req.individual = true → req.delaySeconds = 0 →
        (createSendHandler (some ()) e n o s req).sent.map Message.content =
          req.recipients.map (fun _ => spreadContent req.template req.context req.html)) := by
  constructor
  · intro hd
    rw [handler_delayed_eq e n o s req hcontent hd]
    simp [delayedMessage, Function.comp_def]
  · intro hind hd0
    rw [handler_parallel_eq e n o s req hcontent hind hd0]
    simp [parallelMessage, Function.comp_def]

/-- Witness for the amended C4: in delayed mode a named template gets the
merged context with the recipient field in front; the same request in
concurrent mode gets the untouched global context. -/
theorem content_merge_amended_witness :
    ((createSendHandler (some ()) "acc@example.com" none
      (fun _ => Except.ok ⟨"m0", [], []⟩) (fun _ => 5)
      { recipients := [⟨"a@b.c", none⟩], subject := "s", template := some "t",
        context := [("city", "X")], delaySeconds := 1 }).sent.map Message.content =
      [Content.templated "t" [("email", "a@b.c"), ("city", "X")]])
    ∧ ((createSendHandler (some ()) "acc@example.com" none
        (fun _ => Except.ok ⟨"m0", [], []⟩) (fun _ => 5)
        { recipients := [⟨"a@b.c", none⟩], subject := "s", template := some "t",
          context := [("city", "X")], individual := true }).sent.map Message.content =
      [Content.templated "t" [("city", "X")]]) := by
  constructor
  · have h := (content_merge_amended "acc@example.com" none
      (fun _ => Except.ok ⟨"m0", [], []⟩) (fun _ => 5)
      { recipients := [⟨"a@b.c", none⟩], subject := "s", template := some "t",
        context := [("city", "X")], delaySeconds := 1 } (by decide)).1 (by decide)
    rw [h]
    decide
  · have h := (content_merge_amended "acc@example.com" none
      (fun _ => Except.ok ⟨"m0", [], []⟩) (fun _ => 5)
      { recipients := [⟨"a@b.c", none⟩], subject := "s", template := some "t",
        context := [("city", "X")], individual := true } (by decide)).2 rfl rfl
    rw [h]
    decide

/-- C7 counterexample: a run of concurrent individual mode in which the
second send settles before the first (`settleOrder = [1, 0]`). The code
still produces the ok list in input order, because `Promise.allSettled`
reports results indexed by input position and the aggregation walks them by
index, so the list does not follow completion order. -/
theorem result_order_counterexample :
    ((createSendHandler (some ()) "acc@example.com" none
      (fun i => if i == 0 then Except.ok ⟨"m0", [], []⟩ else Except.ok ⟨"m1", [], []⟩)
      (fun _ => 5)
      { recipients := [⟨"a@b.c", none⟩, ⟨"d@e.f", none⟩], subject := "s",
        html := some "x", individual := true }).response =
      Resp.individualReport [⟨"a@b.c", "m0", []⟩, ⟨"d@e.f", "m1", []⟩] [])
    ∧ [(⟨"a@b.c", "m0", []⟩ : OkEntry), ⟨"d@e.f", "m1", []⟩] ≠
        okByCompletionOrder [⟨"a@b.c", none⟩, ⟨"d@e.f", none⟩]
          (fun i => if i == 0 then Except.ok ⟨"m0", [], []⟩ else Except.ok ⟨"m1", [], []⟩)
          [1, 0] :=
  ⟨by decide, by decide⟩

/-- C7 amended: the ok and fail lists follow input-list order in BOTH
modes, deterministically: concurrent individual mode aggregates the settled
results by input index, and delayed mode collects outcomes in its
sequential input-order loop. -/
theorem result_order_amended (e : String) (n : Option String)
    (o : Nat → Except String SendInfo) (s : Nat → Nat) (req : SendRequest)
    (hcontent : (isFalsy req.template && isFalsy req.html) = false) :
    (req.individual = true → req.delaySeconds = 0 →
      (createSendHandler (some ()) e n o s req).response =
        .individualReport (okInOrder o 0 req.recipients) (failInOrder o 0 req.recipients))
    ∧ (0 < req.delaySeconds →
        ∃ total dur, (createSendHandler (some ()) e n o s req).response =
          .delayedReport total dur (okInOrder o 0 req.recipients)
            (failInOrder o 0 req.recipients)) := by
  constructor
  · intro hind hd0
    rw [handler_parallel_eq e n o s req hcontent hind hd0]
  · intro hd
    rw [handler_delayed_eq e n o s req hcontent hd]
    exact ⟨_, _, rfl⟩

/-- Witness for the amended C7: both modes on a concrete two-recipient
request with one failure produce the input-ordered lists. -/
theorem result_order_amended_witness :
    ((createSendHandler (some ()) "acc@example.com" none
      (fun i => if i == 0 then Except.error "boom" else Except.ok ⟨"m1", [], []⟩)
      (fun _ => 5)
      { recipients := [⟨"a@b.c", none⟩, ⟨"d@e.f", none⟩], subject := "s",
        html := some "x", individual := true }).response =
      Resp.individualReport [⟨"d@e.f", "m1", []⟩] [⟨"a@b.c", "boom"⟩])
    ∧ ∃ total dur, (createSendHandler (some ()) "acc@example.com" none
        (fun i => if i == 0 then Except.error "boom" else Except.ok ⟨"m1", [], []⟩)
        (fun _ => 5)
        { recipients := [⟨"a@b.c", none⟩, ⟨"d@e.f", none⟩], subject := "s",
          html := some "x", delaySeconds := 1 }).response =
      Resp.delayedReport total dur [⟨"d@e.f", "m1", []⟩] [⟨"a@b.c", "boom"⟩] := by
  constructor
  · have h := (result_order_amended "acc@example.com" none
      (fun i => if i == 0 then Except.error "boom" else Except.ok ⟨"m1", [], []⟩)
      (fun _ => 5)
      { recipients := [⟨"a@b.c", none⟩, ⟨"d@e.f", none⟩], subject := "s",
        html := some "x", individual := true } (by decide)).1 rfl rfl
    rw [h]
    decide
  · obtain ⟨total, dur, h⟩ := (result_order_amended "acc@example.com" none
      (fun i => if i == 0 then Except.error "boom" else Except.ok ⟨"m1", [], []⟩)
      (fun _ => 5)
      { recipients := [⟨"a@b.c", none⟩, ⟨"d@e.f", none⟩], subject := "s",
        html := some "x", delaySeconds := 1 } (by decide)).2 (by decide)
    refine ⟨total, dur, ?_⟩
    rw [h]
    rfl

end Mailaz
